import Mathlib

/-!
Verification of the Optimal Guidance Law (OGL) routine of the
openastro/control repository.

The repository consists of one templated C++ function,
`computeOptimalGuidanceLaw`, present in two near-duplicate headers:
  - src/include/control/optimalGuidanceLaw.hpp (namespace `control` here),
    whose ZEM premultiplier is `zeroEffortMissGain / (timeToGo * timeToGo)`;
  - src/include/Control/optimalGuidanceLaw.hpp (namespace `Control` here),
    whose ZEM premultiplier is `zeroEffortVelocityGain / (timeToGo * timeToGo)`.
Both are embedded below over an arbitrary field, mirroring the C++
template over a generic `Real` scalar type.  The 3-vector type is a
structure of three components, equality componentwise, as in the spec.
-/

/-- An ordered triple of scalars: the generic template argument Vector3
of the C++ function, with componentwise equality. -/
structure Vec3 (R : Type) where
  c0 : R
  c1 : R
  c2 : R
  deriving DecidableEq

namespace Vec3

/-- Component access, `v[0]`, `v[1]`, `v[2]` in the C++ source. -/
def get {R : Type} (v : Vec3 R) : Fin 3 → R
  | 0 => v.c0
  | 1 => v.c1
  | 2 => v.c2

/-- Componentwise addition of 3-vectors. -/
def add {R : Type} [Field R] (v w : Vec3 R) : Vec3 R :=
  ⟨v.c0 + w.c0, v.c1 + w.c1, v.c2 + w.c2⟩

/-- Scalar multiplication of a 3-vector. -/
def smul {R : Type} [Field R] (a : R) (v : Vec3 R) : Vec3 R :=
  ⟨a * v.c0, a * v.c1, a * v.c2⟩

/-- The zero 3-vector, (0, 0, 0). -/
def zero (R : Type) [Field R] : Vec3 R := ⟨0, 0, 0⟩

end Vec3

namespace control

/-- Embedding of `computeOptimalGuidanceLaw` from
src/include/control/optimalGuidanceLaw.hpp (lines 42-61).  The C++
default arguments `zeroEffortMissGain = 6.0` and
`zeroEffortVelocityGain = -2.0` are passed explicitly by callers here. -/
def computeOptimalGuidanceLaw {R : Type} [Field R]
    (zeroEffortMiss zeroEffortVelocity : Vec3 R)
    (timeToGo zeroEffortMissGain zeroEffortVelocityGain : R) : Vec3 R :=
  let controlEffort := zeroEffortMiss
  let zeroEffortMissPremultiplier := zeroEffortMissGain / (timeToGo * timeToGo)
  let zeroEffortVelocityPremultiplier := zeroEffortVelocityGain / timeToGo
  let controlEffort := { controlEffort with
    c0 := zeroEffortMissPremultiplier * zeroEffortMiss.c0
          + zeroEffortVelocityPremultiplier * zeroEffortVelocity.c0 }
  let controlEffort := { controlEffort with
    c1 := zeroEffortMissPremultiplier * zeroEffortMiss.c1
          + zeroEffortVelocityPremultiplier * zeroEffortVelocity.c1 }
  let controlEffort := { controlEffort with
    c2 := zeroEffortMissPremultiplier * zeroEffortMiss.c2
          + zeroEffortVelocityPremultiplier * zeroEffortVelocity.c2 }
  controlEffort

end control

namespace Control

/-- Embedding of `computeOptimalGuidanceLaw` from
src/include/Control/optimalGuidanceLaw.hpp (lines 41-60).  Note that the
ZEM premultiplier there reads `zeroEffortVelocityGain / (timeToGo * timeToGo)`,
so the `zeroEffortMissGain` parameter is never read in the body.  The C++
default arguments are passed explicitly by callers here. -/
def computeOptimalGuidanceLaw {R : Type} [Field R]
    (zeroEffortMiss zeroEffortVelocity : Vec3 R)
    (timeToGo zeroEffortMissGain zeroEffortVelocityGain : R) : Vec3 R :=
  let control := zeroEffortMiss
  let zeroEffortMissPremultiplier := zeroEffortVelocityGain / (timeToGo * timeToGo)
  let zeroEffortVelocityPremultiplier := zeroEffortVelocityGain / timeToGo
  let control := { control with
    c0 := zeroEffortMissPremultiplier * zeroEffortMiss.c0
          + zeroEffortVelocityPremultiplier * zeroEffortVelocity.c0 }
  let control := { control with
    c1 := zeroEffortMissPremultiplier * zeroEffortMiss.c1
          + zeroEffortVelocityPremultiplier * zeroEffortVelocity.c1 }
  let control := { control with
    c2 := zeroEffortMissPremultiplier * zeroEffortMiss.c2
          + zeroEffortVelocityPremultiplier * zeroEffortVelocity.c2 }
  control

end Control

/-- Division guarded against a zero divisor; used to show every division
of the routine is well-defined under the precondition timeToGo ≠ 0. -/
def checkedDiv {R : Type} [Field R] [DecidableEq R] (a b : R) : Option R :=
  if b = 0 then none else some (a / b)

namespace control

/-- Guarded variant of the embedding: each division of the body goes
through `checkedDiv`, making any division by zero observable as `none`. -/
def computeOptimalGuidanceLawChecked {R : Type} [Field R] [DecidableEq R]
    (zeroEffortMiss zeroEffortVelocity : Vec3 R)
    (timeToGo zeroEffortMissGain zeroEffortVelocityGain : R) : Option (Vec3 R) := do
  let zeroEffortMissPremultiplier ← checkedDiv zeroEffortMissGain (timeToGo * timeToGo)
  let zeroEffortVelocityPremultiplier ← checkedDiv zeroEffortVelocityGain timeToGo
  pure { c0 := zeroEffortMissPremultiplier * zeroEffortMiss.c0
               + zeroEffortVelocityPremultiplier * zeroEffortVelocity.c0
         c1 := zeroEffortMissPremultiplier * zeroEffortMiss.c1
               + zeroEffortVelocityPremultiplier * zeroEffortVelocity.c1
         c2 := zeroEffortMissPremultiplier * zeroEffortMiss.c2
               + zeroEffortVelocityPremultiplier * zeroEffortVelocity.c2 }

end control

/-- Modelled from the spec (section 4.1): the evaluation formula
`control[i] = (missGain / timeToGo^2) * zem[i] + (velocityGain / timeToGo) * zev[i]`
for i in 0, 1, 2.  Written from the words of the spec, to be compared
with the embeddings above. -/
def specEvaluate {R : Type} [Field R] (zem zev : Vec3 R)
    (timeToGo missGain velocityGain : R) : Vec3 R :=
  ⟨missGain / timeToGo ^ 2 * zem.c0 + velocityGain / timeToGo * zev.c0,
   missGain / timeToGo ^ 2 * zem.c1 + velocityGain / timeToGo * zev.c1,
   missGain / timeToGo ^ 2 * zem.c2 + velocityGain / timeToGo * zev.c2⟩

/-- ZEM input of the golden test case (src/test/testOptimalGuidanceLawEigen.cpp),
also the scenario input of section 8 of the spec. -/
def testZeroEffortMiss : Vec3 ℚ := ⟨-21163/1000, 9887/1000, -613/1000⟩

/-- ZEV input of the golden test case. -/
def testZeroEffortVelocity : Vec3 ℚ := ⟨-1244/1000, -112/1000, 3119/1000⟩

/-- Time-to-go input of the golden test case. -/
def testTimeToGo : ℚ := 12516/1000

/-- If two affine expressions sharing the second summand agree while the
premultipliers of the first differ, that first factor must be zero. -/
lemma premultiplier_cancel {R : Type} [Field R] {p q x y : R}
    (hpq : p ≠ q) (h : p * x + y = q * x + y) : x = 0 := by
  have h2 : p * x = q * x := add_right_cancel h
  by_contra hx
  exact hpq (mul_right_cancel₀ hx h2)

/-- Dividing two distinct scalars by the same nonzero scalar keeps them
distinct. -/
lemma div_ne_div_of_ne {R : Type} [Field R] {a b c : R} (hc : c ≠ 0) (h : a ≠ b) :
    a / c ≠ b / c := by
  intro hdiv
  exact h ((div_left_inj' hc).mp hdiv)

/-- Claim C1: for every zem, zev, nonzero timeToGo, missGain and
velocityGain, the src/include/control variant of computeOptimalGuidanceLaw
returns the vector whose i-th component (i in 0, 1, 2) equals
(missGain / timeToGo^2) * zem[i] + (velocityGain / timeToGo) * zev[i]. -/
theorem computeOptimalGuidanceLaw_matches_spec_formula (R : Type) [Field R]
    (zem zev : Vec3 R) (t gm gv : R) (ht : t ≠ 0) (i : Fin 3) :
    (control.computeOptimalGuidanceLaw zem zev t gm gv).get i
      = gm / t ^ 2 * zem.get i + gv / t * zev.get i := by
  fin_cases i <;> simp only [control.computeOptimalGuidanceLaw, Vec3.get] <;> ring

/-- Concrete instance of the C1 theorem at zem = (1, 2, 3), zev = (4, 5, 6),
timeToGo = 2, gains (6, -2), component 0. -/
theorem computeOptimalGuidanceLaw_matches_spec_formula_witness :
    (control.computeOptimalGuidanceLaw (⟨1, 2, 3⟩ : Vec3 ℚ) ⟨4, 5, 6⟩ 2 6 (-2)).get 0
      = 6 / 2 ^ 2 * Vec3.get (⟨1, 2, 3⟩ : Vec3 ℚ) 0 + (-2) / 2 * Vec3.get (⟨4, 5, 6⟩ : Vec3 ℚ) 0 :=
  computeOptimalGuidanceLaw_matches_spec_formula ℚ ⟨1, 2, 3⟩ ⟨4, 5, 6⟩ 2 6 (-2) (by decide) 0

/-- Claim C2: the two header implementations of computeOptimalGuidanceLaw
are not extensionally equal: whenever zem is a nonzero vector, timeToGo is
nonzero, and the miss gain differs from the velocity gain, the two variants
return different vectors. -/
theorem computeOptimalGuidanceLaw_variants_differ (R : Type) [Field R]
    (zem zev : Vec3 R) (t gm gv : R)
    (hzem : zem ≠ Vec3.zero R) (ht : t ≠ 0) (hg : gm ≠ gv) :
    control.computeOptimalGuidanceLaw zem zev t gm gv ≠
      Control.computeOptimalGuidanceLaw zem zev t gm gv := by
  intro heq
  apply hzem
  have htt : t * t ≠ 0 := mul_ne_zero ht ht
  have hp : gm / (t * t) ≠ gv / (t * t) := div_ne_div_of_ne htt hg
  obtain ⟨x0, x1, x2⟩ := zem
  obtain ⟨y0, y1, y2⟩ := zev
  simp only [control.computeOptimalGuidanceLaw, Control.computeOptimalGuidanceLaw,
    Vec3.mk.injEq] at heq
  obtain ⟨h0, h1, h2⟩ := heq
  simp only [Vec3.zero, Vec3.mk.injEq]
  exact ⟨premultiplier_cancel hp h0, premultiplier_cancel hp h1, premultiplier_cancel hp h2⟩

/-- Concrete instance of the C2 theorem at zem = (1, 0, 0), zev = (0, 0, 0),
timeToGo = 1, gains (6, -2). -/
theorem computeOptimalGuidanceLaw_variants_differ_witness :
    control.computeOptimalGuidanceLaw (⟨1, 0, 0⟩ : Vec3 ℚ) ⟨0, 0, 0⟩ 1 6 (-2) ≠
      Control.computeOptimalGuidanceLaw (⟨1, 0, 0⟩ : Vec3 ℚ) ⟨0, 0, 0⟩ 1 6 (-2) :=
  computeOptimalGuidanceLaw_variants_differ ℚ ⟨1, 0, 0⟩ ⟨0, 0, 0⟩ 1 6 (-2)
    (by simp [Vec3.zero]) (by decide) (by decide)

/-- Claim C3: for every zem, zev, nonzero timeToGo and explicitly passed
gains, the src/include/control variant of computeOptimalGuidanceLaw equals
the spec formula with those gains substituted for the defaults, and its
output depends on the passed miss gain (changing the miss gain changes the
output whenever the first ZEM component is nonzero). -/
theorem computeOptimalGuidanceLaw_custom_gains (R : Type) [Field R]
    (zem zev : Vec3 R) (t gm gv gm2 : R) (ht : t ≠ 0) :
    control.computeOptimalGuidanceLaw zem zev t gm gv = specEvaluate zem zev t gm gv ∧
    (zem.c0 ≠ 0 → gm ≠ gm2 →
      control.computeOptimalGuidanceLaw zem zev t gm gv ≠
        control.computeOptimalGuidanceLaw zem zev t gm2 gv) := by
  constructor
  · simp only [control.computeOptimalGuidanceLaw, specEvaluate, Vec3.mk.injEq]
    refine ⟨by ring, by ring, by ring⟩
  · intro hx hg heq
    apply hx
    have htt : t * t ≠ 0 := mul_ne_zero ht ht
    have hp : gm / (t * t) ≠ gm2 / (t * t) := div_ne_div_of_ne htt hg
    obtain ⟨x0, x1, x2⟩ := zem
    obtain ⟨y0, y1, y2⟩ := zev
    simp only [control.computeOptimalGuidanceLaw, Vec3.mk.injEq] at heq
    exact premultiplier_cancel hp heq.1

/-- Concrete instance of the C3 theorem at zem = (1, 2, 3), zev = (4, 5, 6),
timeToGo = 2, gains (3, -5) against alternative miss gain 4. -/
theorem computeOptimalGuidanceLaw_custom_gains_witness :
    (control.computeOptimalGuidanceLaw (⟨1, 2, 3⟩ : Vec3 ℚ) ⟨4, 5, 6⟩ 2 3 (-5)
        = specEvaluate (⟨1, 2, 3⟩ : Vec3 ℚ) ⟨4, 5, 6⟩ 2 3 (-5)) ∧
    ((⟨1, 2, 3⟩ : Vec3 ℚ).c0 ≠ 0 → (3 : ℚ) ≠ 4 →
      control.computeOptimalGuidanceLaw (⟨1, 2, 3⟩ : Vec3 ℚ) ⟨4, 5, 6⟩ 2 3 (-5) ≠
        control.computeOptimalGuidanceLaw (⟨1, 2, 3⟩ : Vec3 ℚ) ⟨4, 5, 6⟩ 2 4 (-5)) :=
  computeOptimalGuidanceLaw_custom_gains ℚ ⟨1, 2, 3⟩ ⟨4, 5, 6⟩ 2 3 (-5) 4 (by decide)

/-- Claim C4, counterexample: on the golden scenario input with default
gains, the first output component is NOT within 1e-12 relative tolerance of
the value -0.6118 stated by the spec (the spec rounds to four decimals, so
the true relative deviation is about 4.5e-6). -/
theorem goldenScenario_not_within_tol12 :
    ¬ (|(control.computeOptimalGuidanceLaw testZeroEffortMiss testZeroEffortVelocity
          testTimeToGo 6 (-2)).c0 - (-6118/10000)| ≤ 1/10^12 * (6118/10000 : ℚ)) := by
  norm_num [control.computeOptimalGuidanceLaw, testZeroEffortMiss, testZeroEffortVelocity,
    testTimeToGo, abs_le]

/-- Claim C4, amended: on the golden scenario input with default gains, the
output of the src/include/control variant is within 1e-4 relative tolerance
of (-0.6118, 0.3966, -0.5219), in exact rational arithmetic. -/
theorem goldenScenario_within_tol4 :
    |(control.computeOptimalGuidanceLaw testZeroEffortMiss testZeroEffortVelocity
        testTimeToGo 6 (-2)).c0 - (-6118/10000)| ≤ 1/10^4 * (6118/10000 : ℚ) ∧
    |(control.computeOptimalGuidanceLaw testZeroEffortMiss testZeroEffortVelocity
        testTimeToGo 6 (-2)).c1 - 3966/10000| ≤ 1/10^4 * (3966/10000 : ℚ) ∧
    |(control.computeOptimalGuidanceLaw testZeroEffortMiss testZeroEffortVelocity
        testTimeToGo 6 (-2)).c2 - (-5219/10000)| ≤ 1/10^4 * (5219/10000 : ℚ) := by
  refine ⟨?_, ?_, ?_⟩ <;>
    norm_num [control.computeOptimalGuidanceLaw, testZeroEffortMiss, testZeroEffortVelocity,
      testTimeToGo, abs_le]

/-- Claim C5: the src/include/control variant of computeOptimalGuidanceLaw
is linear in (zem, zev): for every nonzero timeToGo, fixed gains, scalars
a, b, evaluating at (a zem1 + b zem2, a zev1 + b zev2) equals a times the
evaluation at (zem1, zev1) plus b times the evaluation at (zem2, zev2),
exactly in any field. -/
theorem computeOptimalGuidanceLaw_linear (R : Type) [Field R]
    (a b : R) (zem1 zem2 zev1 zev2 : Vec3 R) (t gm gv : R) (ht : t ≠ 0) :
    control.computeOptimalGuidanceLaw
        (Vec3.add (Vec3.smul a zem1) (Vec3.smul b zem2))
        (Vec3.add (Vec3.smul a zev1) (Vec3.smul b zev2)) t gm gv
      = Vec3.add (Vec3.smul a (control.computeOptimalGuidanceLaw zem1 zev1 t gm gv))
                 (Vec3.smul b (control.computeOptimalGuidanceLaw zem2 zev2 t gm gv)) := by
  simp only [control.computeOptimalGuidanceLaw, Vec3.add, Vec3.smul, Vec3.mk.injEq]
  refine ⟨by ring, by ring, by ring⟩

/-- Concrete instance of the C5 theorem at a = 2, b = 3, concrete vectors,
timeToGo = 2, gains (6, -2). -/
theorem computeOptimalGuidanceLaw_linear_witness :
    control.computeOptimalGuidanceLaw
        (Vec3.add (Vec3.smul (2 : ℚ) ⟨1, 2, 3⟩) (Vec3.smul 3 ⟨4, 5, 6⟩))
        (Vec3.add (Vec3.smul (2 : ℚ) ⟨7, 8, 9⟩) (Vec3.smul 3 ⟨1, 1, 1⟩)) 2 6 (-2)
      = Vec3.add
          (Vec3.smul 2 (control.computeOptimalGuidanceLaw (⟨1, 2, 3⟩ : Vec3 ℚ) ⟨7, 8, 9⟩ 2 6 (-2)))
          (Vec3.smul 3 (control.computeOptimalGuidanceLaw (⟨4, 5, 6⟩ : Vec3 ℚ) ⟨1, 1, 1⟩ 2 6 (-2))) :=
  computeOptimalGuidanceLaw_linear ℚ 2 3 ⟨1, 2, 3⟩ ⟨4, 5, 6⟩ ⟨7, 8, 9⟩ ⟨1, 1, 1⟩ 2 6 (-2)
    (by decide)

/-- Claim C6: for every nonzero timeToGo and any gains, the
src/include/control variant of computeOptimalGuidanceLaw maps the zero ZEM
and zero ZEV vectors to the zero vector. -/
theorem computeOptimalGuidanceLaw_zero_input (R : Type) [Field R]
    (t gm gv : R) (ht : t ≠ 0) :
    control.computeOptimalGuidanceLaw (Vec3.zero R) (Vec3.zero R) t gm gv = Vec3.zero R := by
  simp only [control.computeOptimalGuidanceLaw, Vec3.zero, Vec3.mk.injEq]
  refine ⟨by ring, by ring, by ring⟩

/-- Concrete instance of the C6 theorem at timeToGo = 5, gains (6, -2). -/
theorem computeOptimalGuidanceLaw_zero_input_witness :
    control.computeOptimalGuidanceLaw (Vec3.zero ℚ) (Vec3.zero ℚ) 5 6 (-2) = Vec3.zero ℚ :=
  computeOptimalGuidanceLaw_zero_input ℚ 5 6 (-2) (by decide)

/-- Claim C7: computeOptimalGuidanceLaw performs no input validation and
raises no error; under the precondition timeToGo ≠ 0 every division in the
body divides by a nonzero value, so the guarded embedding never takes its
division-by-zero branch and agrees with the total embedding. -/
theorem computeOptimalGuidanceLawChecked_total (R : Type) [Field R] [DecidableEq R]
    (zem zev : Vec3 R) (t gm gv : R) (ht : t ≠ 0) :
    control.computeOptimalGuidanceLawChecked zem zev t gm gv
      = some (control.computeOptimalGuidanceLaw zem zev t gm gv) := by
  have htt : t * t ≠ 0 := mul_ne_zero ht ht
  simp [control.computeOptimalGuidanceLawChecked, control.computeOptimalGuidanceLaw,
    checkedDiv, htt, ht]

/-- Concrete instance of the C7 theorem at zem = (1, 2, 3), zev = (4, 5, 6),
timeToGo = 2, gains (6, -2). -/
theorem computeOptimalGuidanceLawChecked_total_witness :
    control.computeOptimalGuidanceLawChecked (⟨1, 2, 3⟩ : Vec3 ℚ) ⟨4, 5, 6⟩ 2 6 (-2)
      = some (control.computeOptimalGuidanceLaw (⟨1, 2, 3⟩ : Vec3 ℚ) ⟨4, 5, 6⟩ 2 6 (-2)) :=
  computeOptimalGuidanceLawChecked_total ℚ ⟨1, 2, 3⟩ ⟨4, 5, 6⟩ 2 6 (-2) (by decide)

/-- Claim C8: computeOptimalGuidanceLaw is deterministic: any two
evaluations (of either header variant) with identical arguments return
identical output vectors. -/
theorem computeOptimalGuidanceLaw_deterministic (R : Type) [Field R]
    (zem zev : Vec3 R) (t gm gv : R) (zem2 zev2 : Vec3 R) (t2 gm2 gv2 : R)
    (h1 : zem = zem2) (h2 : zev = zev2) (h3 : t = t2) (h4 : gm = gm2) (h5 : gv = gv2) :
    control.computeOptimalGuidanceLaw zem zev t gm gv
        = control.computeOptimalGuidanceLaw zem2 zev2 t2 gm2 gv2 ∧
      Control.computeOptimalGuidanceLaw zem zev t gm gv
        = Control.computeOptimalGuidanceLaw zem2 zev2 t2 gm2 gv2 := by
  subst h1 h2 h3 h4 h5
  exact ⟨rfl, rfl⟩

/-- Concrete instance of the C8 theorem at zem = (1, 2, 3), zev = (4, 5, 6),
timeToGo = 2, gains (6, -2), repeated verbatim. -/
theorem computeOptimalGuidanceLaw_deterministic_witness :
    (control.computeOptimalGuidanceLaw (⟨1, 2, 3⟩ : Vec3 ℚ) ⟨4, 5, 6⟩ 2 6 (-2)
        = control.computeOptimalGuidanceLaw (⟨1, 2, 3⟩ : Vec3 ℚ) ⟨4, 5, 6⟩ 2 6 (-2)) ∧
      (Control.computeOptimalGuidanceLaw (⟨1, 2, 3⟩ : Vec3 ℚ) ⟨4, 5, 6⟩ 2 6 (-2)
        = Control.computeOptimalGuidanceLaw (⟨1, 2, 3⟩ : Vec3 ℚ) ⟨4, 5, 6⟩ 2 6 (-2)) :=
  computeOptimalGuidanceLaw_deterministic ℚ ⟨1, 2, 3⟩ ⟨4, 5, 6⟩ 2 6 (-2) ⟨1, 2, 3⟩ ⟨4, 5, 6⟩
    2 6 (-2) rfl rfl rfl rfl rfl

/-- Claim C9: in the src/include/Control variant the result does not depend
on the zeroEffortMissGain argument: for every zem, zev, nonzero timeToGo,
velocity gain and any two miss gain values, the outputs are equal (the
parameter is never read in the body). -/
theorem Control_missGain_not_read (R : Type) [Field R]
    (zem zev : Vec3 R) (t gv g g2 : R) (ht : t ≠ 0) :
    Control.computeOptimalGuidanceLaw zem zev t g gv
      = Control.computeOptimalGuidanceLaw zem zev t g2 gv := rfl

/-- Concrete instance of the C9 theorem at zem = (1, 2, 3), zev = (4, 5, 6),
timeToGo = 2, velocity gain -2, miss gains 6 and 100. -/
theorem Control_missGain_not_read_witness :
    Control.computeOptimalGuidanceLaw (⟨1, 2, 3⟩ : Vec3 ℚ) ⟨4, 5, 6⟩ 2 6 (-2)
      = Control.computeOptimalGuidanceLaw (⟨1, 2, 3⟩ : Vec3 ℚ) ⟨4, 5, 6⟩ 2 100 (-2) :=
  Control_missGain_not_read ℚ ⟨1, 2, 3⟩ ⟨4, 5, 6⟩ 2 (-2) 6 100 (by decide)

/-- Claim C10: on the test inputs with default gains, the
src/include/Control variant returns a vector within 100 machine epsilons
(100 / 2^52) relative tolerance of the golden values
(0.468979814498356, -0.108333152037747, -0.490575693665001) pinned by
src/test/testOptimalGuidanceLawEigen.cpp, in exact rational arithmetic. -/
theorem Control_goldenTest_within_tolerance :
    |(Control.computeOptimalGuidanceLaw testZeroEffortMiss testZeroEffortVelocity
        testTimeToGo 6 (-2)).c0 - 468979814498356/10^15|
      ≤ 100/2^52 * (468979814498356/10^15 : ℚ) ∧
    |(Control.computeOptimalGuidanceLaw testZeroEffortMiss testZeroEffortVelocity
        testTimeToGo 6 (-2)).c1 - (-108333152037747/10^15)|
      ≤ 100/2^52 * (108333152037747/10^15 : ℚ) ∧
    |(Control.computeOptimalGuidanceLaw testZeroEffortMiss testZeroEffortVelocity
        testTimeToGo 6 (-2)).c2 - (-490575693665001/10^15)|
      ≤ 100/2^52 * (490575693665001/10^15 : ℚ) := by
  refine ⟨?_, ?_, ?_⟩ <;>
    norm_num [Control.computeOptimalGuidanceLaw, testZeroEffortMiss, testZeroEffortVelocity,
      testTimeToGo, abs_le]
